import Mathlib

/-!
Shallow embedding of the email-processing pipeline in src/code/src/app.py.

The Python module defines a deduplication store keyed by SHA-256
fingerprints, a classifier call whose three-line textual response is
parsed and validated against a fixed taxonomy, regex-based field
extraction, a pipeline orchestrator, and a file-extension dispatcher.
External collaborators (the HTTP transport of the requests library, the
hashlib SHA-256 primitive, Python regular expressions and string
methods) are modelled here as executable Lean functions; Python
whitespace and word character classes are modelled over their ASCII
portion, which covers every literal the program manipulates.
-/

namespace EmailApp

/-- ASCII model of Python str.strip / regex whitespace class. -/
def isPySpace (c : Char) : Bool :=
  c = ' ' ∨ c = '\t' ∨ c = '\n' ∨ c = '\r' ∨ c = '\x0b' ∨ c = '\x0c'

/-- Strip leading and trailing whitespace, as Python str.strip(). -/
def stripChars (cs : List Char) : List Char :=
  ((cs.dropWhile isPySpace).reverse.dropWhile isPySpace).reverse

/-- String-level strip, as Python str.strip(). -/
def pyStripStr (s : String) : String :=
  String.mk (stripChars s.data)

/-- Split on the newline character, as Python str.split with a newline
separator: empty segments are kept.  The accumulator holds the current
segment reversed. -/
def splitNl : List Char → List Char → List (List Char)
  | [], cur => [cur.reverse]
  | c :: rest, cur =>
    if c = '\n' then cur.reverse :: splitNl rest [] else splitNl rest (c :: cur)

/- ---------- SHA-256 (model of hashlib.sha256(...).hexdigest()) ---------- -/

/-- 2 to the 32nd power: modulus of 32-bit words. -/
def M32 : Nat := 4294967296

/-- Rotate a 32-bit word right by n bits. -/
def rotr32 (x n : Nat) : Nat :=
  ((x >>> n) ||| ((x <<< (32 - n)) % M32))

def bsig0 (x : Nat) : Nat := (rotr32 x 2) ^^^ (rotr32 x 13) ^^^ (rotr32 x 22)
def bsig1 (x : Nat) : Nat := (rotr32 x 6) ^^^ (rotr32 x 11) ^^^ (rotr32 x 25)
def ssig0 (x : Nat) : Nat := (rotr32 x 7) ^^^ (rotr32 x 18) ^^^ (x >>> 3)
def ssig1 (x : Nat) : Nat := (rotr32 x 17) ^^^ (rotr32 x 19) ^^^ (x >>> 10)

/-- UTF-8 encoding of one Unicode scalar value, as Python str.encode. -/
def utf8Bytes (c : Char) : List Nat :=
  let n := c.toNat
  if n < 128 then [n]
  else if n < 2048 then [192 + n / 64, 128 + n % 64]
  else if n < 65536 then [224 + n / 4096, 128 + (n / 64) % 64, 128 + n % 64]
  else [240 + n / 262144, 128 + (n / 4096) % 64, 128 + (n / 64) % 64, 128 + n % 64]

/-- UTF-8 encoding of a string as a byte list. -/
def utf8Encode (s : String) : List Nat :=
  s.data.foldr (fun c acc => utf8Bytes c ++ acc) []

/-- Big-endian byte expansion of n on k bytes. -/
def beBytes : Nat → Nat → List Nat
  | 0, _ => []
  | k + 1, n => ((n >>> (8 * k)) % 256) :: beBytes k n

/-- SHA-256 message padding: 0x80, zeros, then the 64-bit bit length. -/
def sha256Pad (msg : List Nat) : List Nat :=
  let L := msg.length
  let k := (56 + 64 - ((L + 1) % 64)) % 64
  msg ++ [128] ++ List.replicate k 0 ++ beBytes 8 (8 * L)

/-- Group bytes into big-endian 32-bit words. -/
def bytesToWords : List Nat → List Nat
  | a :: b :: c :: d :: rest =>
    (a * 16777216 + b * 65536 + c * 256 + d) :: bytesToWords rest
  | _ => []

/-- Extend the 16-word block schedule by n further words. -/
def extendWords (w : List Nat) : Nat → List Nat
  | 0 => w
  | n + 1 =>
    let prev := extendWords w n
    let i := prev.length
    prev ++ [(prev.getD (i - 16) 0 + ssig0 (prev.getD (i - 15) 0) +
              prev.getD (i - 7) 0 + ssig1 (prev.getD (i - 2) 0)) % M32]

/-- The 64 SHA-256 round constants of FIPS 180-4, in decimal. -/
def sha256K : List Nat :=
  [1116352408, 1899447441, 3049323471, 3921009573, 961987163, 1508970993,
   2453635748, 2870763221, 3624381080, 310598401, 607225278, 1426881987,
   1925078388, 2162078206, 2614888103, 3248222580, 3835390401, 4022224774,
   264347078, 604807628, 770255983, 1249150122, 1555081692, 1996064986,
   2554220882, 2821834349, 2952996808, 3210313671, 3336571891, 3584528711,
   113926993, 338241895, 666307205, 773529912, 1294757372, 1396182291,
   1695183700, 1986661051, 2177026350, 2456956037, 2730485921, 2820302411,
   3259730800, 3345764771, 3516065817, 3600352804, 4094571909, 275423344,
   430227734, 506948616, 659060556, 883997877, 958139571, 1322822218,
   1537002063, 1747873779, 1955562222, 2024104815, 2227730452, 2361852424,
   2428436474, 2756734187, 3204031479, 3329325298]

/-- The SHA-256 initial hash state of FIPS 180-4, in decimal. -/
def sha256InitH : List Nat :=
  [1779033703, 3144134277, 1013904242, 2773480762,
   1359893119, 2600822924, 528734635, 1541459225]

/-- One SHA-256 round on the eight-word working state; kw is the sum of the
round constant and the schedule word, already reduced mod 2^32. -/
def sha256Round (st : List Nat) (kw : Nat) : List Nat :=
  match st with
  | [a, b, c, d, e, f, g, h] =>
    let S1 := bsig1 e
    let ch := (e &&& f) ^^^ ((4294967295 ^^^ e) &&& g)
    let temp1 := (h + S1 + ch + kw) % M32
    let S0 := bsig0 a
    let maj := (a &&& b) ^^^ (a &&& c) ^^^ (b &&& c)
    let temp2 := (S0 + maj) % M32
    [(temp1 + temp2) % M32, a, b, c, (d + temp1) % M32, e, f, g]
  | other => other

/-- Compress one 64-byte block into the hash state. -/
def sha256Compress (hs : List Nat) (block : List Nat) : List Nat :=
  let w := extendWords (bytesToWords block) 48
  let st := (sha256K.zip w).foldl (fun s kw => sha256Round s ((kw.1 + kw.2) % M32)) hs
  (hs.zip st).map (fun p => (p.1 + p.2) % M32)

/-- Split a padded byte list into 64-byte blocks, with fuel. -/
def chunkBlocksFuel : Nat → List Nat → List (List Nat)
  | 0, _ => []
  | fuel + 1, l =>
    if l.length = 0 then [] else l.take 64 :: chunkBlocksFuel fuel (l.drop 64)

/-- Split a padded byte list into 64-byte blocks. -/
def chunkBlocks (l : List Nat) : List (List Nat) :=
  chunkBlocksFuel l.length l

/-- Lowercase hexadecimal digit. -/
def hexDigit (n : Nat) : Char :=
  "0123456789abcdef".data.getD n '0'

/-- Eight lowercase hex characters of a 32-bit word, most significant first. -/
def wordHex (w : Nat) : List Char :=
  [hexDigit ((w >>> 28) % 16), hexDigit ((w >>> 24) % 16),
   hexDigit ((w >>> 20) % 16), hexDigit ((w >>> 16) % 16),
   hexDigit ((w >>> 12) % 16), hexDigit ((w >>> 8) % 16),
   hexDigit ((w >>> 4) % 16), hexDigit (w % 16)]

/-- SHA-256 hex digest of a byte list, as hashlib.sha256(bytes).hexdigest(). -/
def sha256Hex (msgBytes : List Nat) : String :=
  let blocks := chunkBlocks (sha256Pad msgBytes)
  let hs := blocks.foldl sha256Compress sha256InitH
  String.mk (hs.foldr (fun w acc => wordHex w ++ acc) [])

/- ---------- Duplicate detection (app.py lines 22-36) ---------- -/

/-- app.py compute_email_hash: SHA-256 hex digest of the UTF-8 encoding. -/
def compute_email_hash (email_text : String) : String :=
  sha256Hex (utf8Encode email_text)

/-- app.py is_duplicate.  The process-wide set email_hash_set is made an
explicit argument and the (possibly grown) store is returned alongside the
(flag, reason) pair the Python function returns. -/
def is_duplicate (store : List String) (email_text : String) :
    (Bool × String) × List String :=
  let email_hash := compute_email_hash email_text
  if email_hash ∈ store then
    ((true, "Duplicate email detected (hash: " ++ email_hash ++ ")."), store)
  else
    ((false, ""), email_hash :: store)

/- ---------- Taxonomy (app.py lines 9-20) ---------- -/

/-- app.py REQUEST_TYPES. -/
def REQUEST_TYPES : List String :=
  ["Adjustment", "AU Trasfer", "Closing Notice", "Commitment Change",
   "Fee Payment", "Money Movement Inbound", "Money Movement Outbound"]

/-- app.py SUB_REQUEST_TYPES, the dict modelled as an association list. -/
def SUB_REQUEST_TYPES : List (String × List String) :=
  [("Closing Notice", ["Reallocation Fees", "Amendment Fees", "Reallocation Principal"]),
   ("Commitment Change", ["Cashless Roll", "Decrease", "Increase"]),
   ("Fee Payment", ["Ongoing Fee", "Letter of Credit Fee"]),
   ("Money Movement Inbound", ["Principal", "Interest", "Principal+Interest", "Principal+Interest+Fee"]),
   ("Money Movement Outbound", ["Timebound", "Foreign Currency"])]

/- ---------- Classifier call and three-line parsing (app.py 38-113) ---------- -/

/-- Result record built by call_openrouter_deepseek.  Python carries the
confidence as a float; its values here are the exact decimal rationals the
parsed numerals denote, since only parseability and the absence of
clamping are at stake, never rounding. -/
structure ClassificationResult where
  primary_request : String
  sub_request : Option String
  confidence : Option ℚ
  details : String
deriving DecidableEq, Repr

/-- The choices[0].message.content chain of the decoded JSON body is
modelled by the content field; none models any missing piece, for which
the Python .get chain yields the default "Unknown". -/
structure HttpResponse where
  status_code : Nat
  content : Option String
  text : String
deriving DecidableEq, Repr

/-- Outcome of requests.post: either an HTTP response object, or a raised
transport exception (connection error / timeout), carried as its message. -/
inductive BackendOutcome where
  | response (r : HttpResponse)
  | raised (e : String)
deriving DecidableEq, Repr

/-- app.py line 80: strip the content, split on newlines, strip each line,
keep the non-blank ones. -/
def nonBlankLines (response_text : String) : List String :=
  ((splitNl (stripChars response_text.data) []).map
    (fun l => String.mk (stripChars l))).filter (fun l => l ≠ "")

/-- app.py line 83: the candidate sub request is the second non-blank line
when present and non-empty. -/
def candidate_sub (lines : List String) : Option String :=
  if 1 < lines.length ∧ lines.getD 1 "" ≠ "" then some (lines.getD 1 "") else none

/-- app.py lines 85-90: keep the candidate only when it is truthy, the
primary is a key of SUB_REQUEST_TYPES and the candidate is in that key's
list; otherwise None. -/
def validated_sub (primary : String) (cand : Option String) : Option String :=
  match cand with
  | none => none
  | some s =>
    if s ≠ "" then
      match List.lookup primary SUB_REQUEST_TYPES with
      | some allowed => if s ∈ allowed then some s else none
      | none => none
    else none

/-- Model of the regex search for the pattern: the literal Confidence:
label, optional whitespace, then a non-empty run of digits and dots, at one
starting position.  Whitespace and the digit-dot class are disjoint, so the
greedy scan needs no backtracking. -/
def matchConfidenceAt (cs : List Char) : Option String :=
  if "Confidence:".data.isPrefixOf cs then
    let rest := (cs.drop 11).dropWhile isPySpace
    let grp := rest.takeWhile (fun c => c.isDigit ∨ c = '.')
    if grp.length = 0 then none else some (String.mk grp)
  else none

/-- re.search for the confidence pattern: leftmost starting position wins. -/
def searchConfidence : List Char → Option String
  | [] => none
  | c :: cs =>
    match matchConfidenceAt (c :: cs) with
    | some g => some g
    | none => searchConfidence cs

/-- Nat value of a digit run. -/
def natOfDigits (cs : List Char) : Nat :=
  cs.foldl (fun a c => a * 10 + (c.toNat - 48)) 0

/-- Python float() restricted to the strings the confidence regex can
capture (digits and dots): accepted iff there is at least one digit and at
most one dot; the value is the exact decimal rational.  Anything else
raises ValueError in Python, modelled as none. -/
def pyFloat (s : String) : Option ℚ :=
  let cs := s.data
  if cs.all (fun c => c.isDigit ∨ c = '.') ∧ cs.any (fun c => c.isDigit) ∧
     (cs.filter (fun c => c = '.')).length ≤ 1 then
    let intPart := cs.takeWhile (fun c => c ≠ '.')
    let fracPart := (cs.dropWhile (fun c => c ≠ '.')).drop 1
    some (mkRat (natOfDigits (intPart ++ fracPart)) (10 ^ fracPart.length))
  else none

/-- app.py lines 92-100: confidence from the third non-blank line. -/
def parse_confidence (lines : List String) : Option ℚ :=
  if 2 < lines.length then
    match searchConfidence (lines.getD 2 "").data with
    | some g => pyFloat g
    | none => none
  else none

/-- app.py lines 76-106, success branch: decode the three-line content. -/
def parse_response (response_text : String) : ClassificationResult :=
  { primary_request := (nonBlankLines response_text).getD 0 "Unknown"
    sub_request := validated_sub ((nonBlankLines response_text).getD 0 "Unknown")
      (candidate_sub (nonBlankLines response_text))
    confidence := parse_confidence (nonBlankLines response_text)
    details := "DeepSeek R1 analysis confirms the classification." }

/-- app.py call_openrouter_deepseek.  The requests.post outcome is an
explicit argument; a raised transport exception propagates (Except.error),
a status 200 response is parsed, any other status yields the degraded
record of lines 107-113. -/
def call_openrouter_deepseek (backend : BackendOutcome) (email_text : String) :
    Except String ClassificationResult :=
  match backend with
  | .raised e => .error e
  | .response r =>
    if r.status_code = 200 then
      .ok (parse_response (r.content.getD "Unknown"))
    else
      .ok { primary_request := "Error", sub_request := none, confidence := some 0,
            details := "Error calling DeepSeek API: " ++ toString r.status_code ++ " " ++ r.text }

/- ---------- Field extraction (app.py 115-131) ---------- -/

/-- ASCII model of the regex word class: letters, digits and underscore. -/
def isWordChar (c : Char) : Bool := c.isAlphanum ∨ c = '_'

/-- Character class of the deal-name capture group: word characters,
whitespace and hyphens. -/
def isDealChar (c : Char) : Bool := isWordChar c ∨ isPySpace c ∨ c = '-'

/-- Attempt the deal-name pattern at one position: the literal Deal: label,
greedy optional whitespace, then a non-empty run of deal characters.  Since
whitespace is itself a deal character, the match succeeds exactly when some
deal character follows the label; when only whitespace follows, greedy
backtracking hands one whitespace character back to the capture group. -/
def matchDealAt (cs : List Char) : Option String :=
  if "Deal:".data.isPrefixOf cs then
    let rest := cs.drop 5
    if isDealChar (rest.headD ' ') ∧ rest.length ≠ 0 then
      let ws := rest.takeWhile isPySpace
      let grp := (rest.drop ws.length).takeWhile isDealChar
      if grp.length ≠ 0 then some (String.mk grp)
      else
        match ws.getLast? with
        | some w => some (String.mk [w])
        | none => none
    else none
  else none

/-- re.search for the deal-name pattern: leftmost position wins. -/
def searchDeal : List Char → Option String
  | [] => none
  | c :: cs =>
    match matchDealAt (c :: cs) with
    | some g => some g
    | none => searchDeal cs

/-- Attempt the amount pattern at one position: a dollar sign, greedy
optional whitespace, a non-empty run of digits and commas, then optionally a
dot followed by exactly two digits. -/
def matchAmountAt : List Char → Option String
  | [] => none
  | c :: rest =>
    if c = '$' then
      let afterWs := rest.dropWhile isPySpace
      let run := afterWs.takeWhile (fun d => d.isDigit ∨ d = ',')
      if run.length = 0 then none
      else
        match afterWs.drop run.length with
        | '.' :: d1 :: d2 :: _ =>
          if d1.isDigit ∧ d2.isDigit then some (String.mk (run ++ '.' :: [d1, d2]))
          else some (String.mk run)
        | _ => some (String.mk run)
    else none

/-- re.search for the amount pattern. -/
def searchAmount : List Char → Option String
  | [] => none
  | c :: cs =>
    match matchAmountAt (c :: cs) with
    | some g => some g
    | none => searchAmount cs

/-- Exactly n digits at the head of the list, returning them and the rest. -/
def digitsExact (cs : List Char) (n : Nat) : Option (List Char × List Char) :=
  let pre := cs.take n
  if pre.length = n ∧ pre.all (fun c => c.isDigit) then some (pre, cs.drop n)
  else none

/-- Attempt the date pattern at one position with a digits, a slash, b
digits, a slash and four digits. -/
def tryDate (cs : List Char) (a b : Nat) : Option String :=
  match digitsExact cs a with
  | none => none
  | some (d1, r1) =>
    match r1 with
    | '/' :: r2 =>
      match digitsExact r2 b with
      | none => none
      | some (d2, r3) =>
        match r3 with
        | '/' :: r4 =>
          match digitsExact r4 4 with
          | none => none
          | some (d3, _) => some (String.mk (d1 ++ '/' :: d2 ++ '/' :: d3))
        | _ => none
    | _ => none

/-- Attempt the date pattern at one position, in the backtracking order of
the greedy one-or-two-digit groups. -/
def matchDateAt (cs : List Char) : Option String :=
  (tryDate cs 2 2).orElse fun _ =>
  (tryDate cs 2 1).orElse fun _ =>
  (tryDate cs 1 2).orElse fun _ =>
  tryDate cs 1 1

/-- re.search for the date pattern. -/
def searchDate : List Char → Option String
  | [] => none
  | c :: cs =>
    match matchDateAt (c :: cs) with
    | some g => some g
    | none => searchDate cs

/-- app.py extract_fields.  The Python dict is modelled as an association
list in insertion order: deal_name (group stripped), amount, expiration
date, each None when its regex finds no match. -/
def extract_fields (email_text : String) : List (String × Option String) :=
  [("deal_name", (searchDeal email_text.data).map pyStripStr),
   ("amount", searchAmount email_text.data),
   ("expiration_date", searchDate email_text.data)]

/- ---------- End-to-end processing (app.py 133-165) ---------- -/

/-- The assembled output dict of process_email. -/
structure ProcessingResult where
  duplicate : Bool
  duplicate_reason : String
  classification : ClassificationResult
  extracted_fields : List (String × Option String)
  attachments_extracted_fields : List (List (String × Option String))
deriving DecidableEq, Repr

/-- app.py process_email.  The global fingerprint store is threaded
explicitly and returned next to the outcome; the outcome is Except.error
when the classifier call raised (in which case the Python function
propagates the exception after the duplicate check has already mutated the
store). -/
def process_email (backend : BackendOutcome) (store : List String)
    (email_text : String) (attachments : List String) :
    Except String ProcessingResult × List String :=
  let dupRes := is_duplicate store email_text
  match call_openrouter_deepseek backend email_text with
  | .error e => (.error e, dupRes.2)
  | .ok deepseek_result =>
    (.ok { duplicate := dupRes.1.1,
           duplicate_reason := dupRes.1.2,
           classification := deepseek_result,
           extracted_fields := extract_fields email_text,
           attachments_extracted_fields := attachments.map extract_fields },
     dupRes.2)

/- ---------- File dispatch (app.py 167-198) ---------- -/

/-- Python os.path.rfind: index of the last occurrence, or -1. -/
def pyRfind (cs : List Char) (c : Char) : Int :=
  match cs.reverse.findIdx? (fun x => x = c) with
  | some i => (cs.length : Int) - 1 - (i : Int)
  | none => -1

/-- Python os.path.splitext for POSIX paths: split at the last dot of the
final component, unless every character of that component before the dot is
itself a dot. -/
def splitext (p : String) : String × String :=
  let cs := p.data
  let sepIndex := pyRfind cs '/'
  let dotIndex := pyRfind cs '.'
  if sepIndex < dotIndex then
    let name := (cs.drop (sepIndex + 1).toNat).take (dotIndex - sepIndex - 1).toNat
    if name.any (fun c => c ≠ '.') then
      (String.mk (cs.take dotIndex.toNat), String.mk (cs.drop dotIndex.toNat))
    else (p, "")
  else (p, "")

/-- ASCII model of Python str.lower. -/
def lowerStr (s : String) : String := String.mk (s.data.map Char.toLower)

/-- The ValueError message of app.py line 198. -/
def unsupported_message : String :=
  "Unsupported file type. Only .eml and .msg files are supported."

/-- What process_email_file decides from the file path alone: read the file
as .eml, read it as .msg, or raise ValueError before any processing.  The
two reading branches hand the decoded text to process_email; decoding
itself is file input performed by collaborators (the email module,
extract_msg) and stays outside the model. -/
inductive FileDispatch where
  | processEml
  | processMsg
  | unsupportedError (message : String)
deriving DecidableEq, Repr

/-- app.py process_email_file, lines 174-198: the extension of the path is
lowercased and compared against the two supported forms. -/
def process_email_file_dispatch (file_path : String) : FileDispatch :=
  let ext := lowerStr (splitext file_path).2
  if ext = ".eml" then .processEml
  else if ext = ".msg" then .processMsg
  else .unsupportedError unsupported_message

/-- Whether an Except value is a success (no exception escaped). -/
def except_ok {ε α : Type} : Except ε α → Bool
  | .ok _ => true
  | .error _ => false

end EmailApp

namespace EmailApp

/-- The classifier call on any completed HTTP response never raises: both
status branches construct a result. -/
theorem call_response_ok (r : HttpResponse) (t : String) :
    ∃ cls, call_openrouter_deepseek (.response r) t = .ok cls := by
  unfold call_openrouter_deepseek
  by_cases h : r.status_code = 200 <;> simp [h]

/-- A validated sub request is the candidate itself and passes all three
checks of app.py lines 85-90. -/
theorem validated_sub_eq_some (p s : String) (cand : Option String)
    (h : validated_sub p cand = some s) :
    cand = some s ∧ s ≠ "" ∧
      ∃ allowed, List.lookup p SUB_REQUEST_TYPES = some allowed ∧ s ∈ allowed := by
  cases cand with
  | none => simp [validated_sub] at h
  | some s0 =>
    by_cases h0 : s0 = ""
    · simp [validated_sub, h0] at h
    · cases hl : List.lookup p SUB_REQUEST_TYPES with
      | none => simp [validated_sub, h0, hl] at h
      | some allowed =>
        by_cases hm : s0 ∈ allowed
        · simp [validated_sub, h0, hl, hm] at h
          subst h
          exact ⟨rfl, ⟨h0, ⟨allowed, ⟨rfl, hm⟩⟩⟩⟩
        · simp [validated_sub, h0, hl, hm] at h

/-- The candidate sub request of app.py line 83 is the second non-blank
line. -/
theorem candidate_sub_eq_some (lines : List String) (s : String)
    (h : candidate_sub lines = some s) : lines.getD 1 "" = s := by
  unfold candidate_sub at h
  split at h
  · exact Option.some.inj h
  · exact absurd h (by simp)

/-- C1 (amended part): on a completed HTTP response with non-success
status, the classifier step recovers locally and the pipeline returns a
full ProcessingResult whose classification is the degraded Error record
with null sub request, confidence 0.0 and the status and body in details. -/
theorem c1_backend_failure (r : HttpResponse) (t : String) (h : r.status_code ≠ 200) :
    call_openrouter_deepseek (.response r) t =
      .ok { primary_request := "Error", sub_request := none, confidence := some 0,
            details := "Error calling DeepSeek API: " ++ toString r.status_code ++ " " ++ r.text } ∧
    ∀ store atts, (process_email (.response r) store t atts).1 =
      .ok { duplicate := (is_duplicate store t).1.1,
            duplicate_reason := (is_duplicate store t).1.2,
            classification := ⟨"Error", none, some 0,
              "Error calling DeepSeek API: " ++ toString r.status_code ++ " " ++ r.text⟩,
            extracted_fields := extract_fields t,
            attachments_extracted_fields := atts.map extract_fields } := by
  have hcall : call_openrouter_deepseek (.response r) t =
      .ok { primary_request := "Error", sub_request := none, confidence := some 0,
            details := "Error calling DeepSeek API: " ++ toString r.status_code ++ " " ++ r.text } := by
    unfold call_openrouter_deepseek
    simp [h]
  exact ⟨hcall, fun store atts => by simp [process_email, hcall]⟩

/-- C1 witness: a concrete 500 response is recovered into the degraded
classification record. -/
theorem c1_backend_failure_witness :
    call_openrouter_deepseek (.response ⟨500, none, "Internal Server Error"⟩) "email body" =
      .ok { primary_request := "Error", sub_request := none, confidence := some 0,
            details := "Error calling DeepSeek API: " ++ toString (500:Nat) ++ " " ++ "Internal Server Error" } :=
  (c1_backend_failure ⟨500, none, "Internal Server Error"⟩ "email body" (by decide)).1

/-- C1 counterexample: a transport-level exception from requests.post (a
network error or timeout) is NOT recovered into a ClassificationResult;
call_openrouter_deepseek re-raises it and process_email propagates it to
its caller, against the claim that such a failure is never propagated. -/
theorem c1_counterexample :
    call_openrouter_deepseek
        (.raised "requests.exceptions.ConnectionError: Connection refused") "Hello" =
      .error "requests.exceptions.ConnectionError: Connection refused" ∧
    except_ok (process_email
        (.raised "requests.exceptions.ConnectionError: Connection refused") [] "Hello" []).1 = false :=
  ⟨rfl, rfl⟩

/-- C2 (amended): the primary request of any completed classifier call is
the raw first non-blank line of the content (default Unknown) on status
200, and Error otherwise; it is never checked against REQUEST_TYPES. -/
theorem c2_primary_unvalidated (r : HttpResponse) (t : String) (res : ClassificationResult)
    (h : call_openrouter_deepseek (.response r) t = .ok res) :
    res.primary_request =
      if r.status_code = 200 then (nonBlankLines (r.content.getD "Unknown")).getD 0 "Unknown"
      else "Error" := by
  simp only [call_openrouter_deepseek] at h
  by_cases hs : r.status_code = 200
  · rw [if_pos hs] at h
    rw [if_pos hs, ← Except.ok.inj h]
    rfl
  · rw [if_neg hs] at h
    rw [if_neg hs, ← Except.ok.inj h]

/-- C2 witness: the characterization applied to a concrete 200 response. -/
theorem c2_primary_unvalidated_witness :
    (parse_response "Banana\nFoo\nConfidence: 0.5").primary_request =
      if (200:Nat) = 200 then
        (nonBlankLines ((some "Banana\nFoo\nConfidence: 0.5").getD "Unknown")).getD 0 "Unknown"
      else "Error" :=
  c2_primary_unvalidated ⟨200, some "Banana\nFoo\nConfidence: 0.5", "raw"⟩ "email"
    (parse_response "Banana\nFoo\nConfidence: 0.5") rfl

/-- C2 counterexample: a 200 response whose first line is Banana produces
primary_request Banana, which is neither one of the seven REQUEST_TYPES
values nor Unknown nor Error. -/
theorem c2_counterexample :
    call_openrouter_deepseek
        (.response ⟨200, some "Banana\nFoo\nConfidence: 0.5", "raw"⟩) "email" =
      .ok { primary_request := "Banana", sub_request := none, confidence := some (mkRat 1 2),
            details := "DeepSeek R1 analysis confirms the classification." } ∧
    (REQUEST_TYPES.contains "Banana" || "Banana" == "Unknown" || "Banana" == "Error") = false :=
  ⟨rfl, rfl⟩

/-- C3: check-and-record semantics of the fingerprint store: a fingerprint
already present returns true with the reason carrying the fingerprint and
leaves the store unchanged; a fresh one is inserted with result (false, "");
hence a second call on the same text is always reported as a duplicate with
the fingerprint inside the reason string. -/
theorem c3_check_and_record (store : List String) (t : String) :
    (compute_email_hash t ∈ store →
      is_duplicate store t =
        ((true, "Duplicate email detected (hash: " ++ compute_email_hash t ++ ")."), store)) ∧
    (compute_email_hash t ∉ store →
      is_duplicate store t = ((false, ""), compute_email_hash t :: store)) ∧
    (is_duplicate (is_duplicate store t).2 t).1 =
      (true, "Duplicate email detected (hash: " ++ compute_email_hash t ++ ").") ∧
    ∃ pre post, (is_duplicate (is_duplicate store t).2 t).1.2 =
      pre ++ compute_email_hash t ++ post := by
  have hsecond : (is_duplicate (is_duplicate store t).2 t).1 =
      (true, "Duplicate email detected (hash: " ++ compute_email_hash t ++ ").") := by
    by_cases hmem : compute_email_hash t ∈ store
    · simp [is_duplicate, hmem]
    · simp [is_duplicate, hmem]
  refine ⟨fun hmem => by simp [is_duplicate, hmem],
          fun hmem => by simp [is_duplicate, hmem],
          hsecond,
          "Duplicate email detected (hash: ", ").", ?_⟩
  rw [hsecond]

/-- C3 witness: fresh text inserts its fingerprint; the same text again is
flagged as a duplicate with the fingerprint in the reason, all at concrete
inputs. -/
theorem c3_check_and_record_witness :
    is_duplicate [] "hello" = ((false, ""), [compute_email_hash "hello"]) ∧
    is_duplicate [compute_email_hash "hello"] "hello" =
      ((true, "Duplicate email detected (hash: " ++ compute_email_hash "hello" ++ ")."),
       [compute_email_hash "hello"]) :=
  ⟨(c3_check_and_record [] "hello").2.1 (by simp),
   (c3_check_and_record [compute_email_hash "hello"] "hello").1 (by simp)⟩

/-- C4: classification and field extraction both run unconditionally on any
completed backend response, whatever the duplicate flag says: the returned
ProcessingResult always carries the full classification, the extracted
fields of the text, and one extraction per attachment. -/
theorem c4_no_short_circuit (r : HttpResponse) (store : List String) (t : String)
    (atts : List String) :
    ∃ cls, call_openrouter_deepseek (.response r) t = .ok cls ∧
      (process_email (.response r) store t atts).1 =
        .ok { duplicate := (is_duplicate store t).1.1,
              duplicate_reason := (is_duplicate store t).1.2,
              classification := cls,
              extracted_fields := extract_fields t,
              attachments_extracted_fields := atts.map extract_fields } := by
  obtain ⟨cls, hc⟩ := call_response_ok r t
  exact ⟨cls, hc, by simp [process_email, hc]⟩

/-- C5: a second line survives into sub_request only when it is non-empty,
the primary is a key of SUB_REQUEST_TYPES and the candidate belongs to that
key's list; Ongoing Fee under Fee Payment is accepted, Cashless Roll under
Fee Payment is downgraded to none, and any sub under Adjustment (no
mapping entry) is downgraded to none. -/
theorem c5_sub_validation :
    (∀ response_text s, (parse_response response_text).sub_request = some s →
      s ≠ "" ∧ (nonBlankLines response_text).getD 1 "" = s ∧
      ∃ allowed,
        List.lookup (parse_response response_text).primary_request SUB_REQUEST_TYPES =
          some allowed ∧ s ∈ allowed) ∧
    (parse_response "Fee Payment\nOngoing Fee\nConfidence: 0.9").sub_request =
      some "Ongoing Fee" ∧
    (parse_response "Fee Payment\nCashless Roll\nConfidence: 0.9").sub_request = none ∧
    (parse_response "Adjustment\nOngoing Fee\nConfidence: 0.9").sub_request = none := by
  refine ⟨fun response_text s h => ?_, by decide, by decide, by decide⟩
  have h' : validated_sub ((nonBlankLines response_text).getD 0 "Unknown")
      (candidate_sub (nonBlankLines response_text)) = some s := h
  obtain ⟨hc, hne, allowed, hl, hm⟩ := validated_sub_eq_some _ s _ h'
  exact ⟨hne, candidate_sub_eq_some _ s hc, allowed, hl, hm⟩

/-- C5 witness: the validation conditions instantiated on the accepted
concrete pair (Fee Payment, Ongoing Fee). -/
theorem c5_sub_validation_witness :
    "Ongoing Fee" ≠ "" ∧
    (nonBlankLines "Fee Payment\nOngoing Fee\nConfidence: 0.9").getD 1 "" = "Ongoing Fee" ∧
    ∃ allowed,
      List.lookup (parse_response "Fee Payment\nOngoing Fee\nConfidence: 0.9").primary_request
        SUB_REQUEST_TYPES = some allowed ∧ "Ongoing Fee" ∈ allowed :=
  c5_sub_validation.1 "Fee Payment\nOngoing Fee\nConfidence: 0.9" "Ongoing Fee" (by decide)

/-- C6: confidence comes from searching the third non-blank line for a
Confidence: label followed by a digits-and-dots numeral parsed as a
decimal number; a missing third line or an unparseable numeral gives none;
no clamping to the unit interval happens, so 2.5 is kept as parsed. -/
theorem c6_confidence :
    (∀ response_text, (parse_response response_text).confidence =
      parse_confidence (nonBlankLines response_text)) ∧
    (∀ lines, lines.length ≤ 2 → parse_confidence lines = none) ∧
    (parse_response "Adjustment\nFoo\nConfidence: 0.87").confidence = some (mkRat 87 100) ∧
    (parse_response "Adjustment\nFoo\nConfidence: high").confidence = none ∧
    (parse_response "Adjustment\nFoo").confidence = none ∧
    (parse_response "Adjustment\nFoo\nConfidence: 2.5").confidence = some (mkRat 5 2) ∧
    (1:ℚ) < mkRat 5 2 := by
  refine ⟨fun response_text => rfl, fun lines hlen => ?_,
    by decide, by decide, by decide, by decide, by decide⟩
  unfold parse_confidence
  rw [if_neg (by omega)]

/-- C6 witness: with only two non-blank lines the parsed confidence is
none, at a concrete input. -/
theorem c6_confidence_witness : parse_confidence ["Adjustment", "Foo"] = none :=
  c6_confidence.2.1 ["Adjustment", "Foo"] (by decide)

/-- C7: the field extractor is total by construction and always returns an
association list with exactly the keys deal_name, amount and
expiration_date in that order, each value an optional string. -/
theorem c7_field_completeness (t : String) :
    (extract_fields t).map Prod.fst = ["deal_name", "amount", "expiration_date"] ∧
    (extract_fields t).length = 3 :=
  ⟨rfl, rfl⟩

/-- A returned ProcessingResult determines its fields: helper inversion for
the pipeline output. -/
theorem process_email_ok_inv (backend : BackendOutcome) (store : List String)
    (t : String) (atts : List String) (res : ProcessingResult)
    (h : (process_email backend store t atts).1 = .ok res) :
    res.attachments_extracted_fields = atts.map extract_fields := by
  cases hc : call_openrouter_deepseek backend t with
  | error e => simp [process_email, hc] at h
  | ok cls =>
    simp [process_email, hc] at h
    rw [← h]

/-- C8: the pipeline maps the field extractor over the attachments in input
order, one result per attachment, the empty list giving the empty sequence;
on the concrete two-attachment input where only the first carries a deal
label, the result has length two, keeps input order and the second entry's
deal_name is none. -/
theorem c8_attachment_fanout :
    (∀ backend store t atts res, (process_email backend store t atts).1 = .ok res →
      res.attachments_extracted_fields = atts.map extract_fields ∧
      res.attachments_extracted_fields.length = atts.length) ∧
    (∀ backend store t res, (process_email backend store t []).1 = .ok res →
      res.attachments_extracted_fields = []) ∧
    ∃ res, (process_email (.response ⟨200, some "Fee Payment\nOngoing Fee\nConfidence: 0.9", ""⟩)
        [] "body" ["first Deal: Falcon-2 end.", "second attachment with nothing inside"]).1 =
        .ok res ∧
      res.attachments_extracted_fields =
        [[("deal_name", some "Falcon-2 end"), ("amount", none), ("expiration_date", none)],
         [("deal_name", none), ("amount", none), ("expiration_date", none)]] ∧
      List.lookup "deal_name" (res.attachments_extracted_fields.getD 1 []) = some none := by
  refine ⟨fun backend store t atts res h => ?_, fun backend store t res h => ?_, ?_⟩
  · have := process_email_ok_inv backend store t atts res h
    exact ⟨this, by rw [this, List.length_map]⟩
  · exact process_email_ok_inv backend store t [] res h
  · exact ⟨{ duplicate := false, duplicate_reason := "",
             classification := ⟨"Fee Payment", some "Ongoing Fee", some (mkRat 9 10),
               "DeepSeek R1 analysis confirms the classification."⟩,
             extracted_fields := [("deal_name", none), ("amount", none), ("expiration_date", none)],
             attachments_extracted_fields :=
               [[("deal_name", some "Falcon-2 end"), ("amount", none), ("expiration_date", none)],
                [("deal_name", none), ("amount", none), ("expiration_date", none)]] },
           rfl, rfl, rfl⟩

/-- C8 witness: the fan-out equation instantiated on the concrete
two-attachment pipeline run. -/
theorem c8_attachment_fanout_witness :
    ([[("deal_name", some "Falcon-2 end"), ("amount", none), ("expiration_date", none)],
      [("deal_name", none), ("amount", none), ("expiration_date", none)]] :
        List (List (String × Option String))) =
      ["first Deal: Falcon-2 end.", "second attachment with nothing inside"].map extract_fields ∧
    ([[("deal_name", some "Falcon-2 end"), ("amount", none), ("expiration_date", none)],
      [("deal_name", none), ("amount", none), ("expiration_date", none)]] :
        List (List (String × Option String))).length =
      (["first Deal: Falcon-2 end.", "second attachment with nothing inside"] : List String).length :=
  c8_attachment_fanout.1
    (.response ⟨200, some "Fee Payment\nOngoing Fee\nConfidence: 0.9", ""⟩) [] "body"
    ["first Deal: Falcon-2 end.", "second attachment with nothing inside"]
    { duplicate := false, duplicate_reason := "",
      classification := ⟨"Fee Payment", some "Ongoing Fee", some (mkRat 9 10),
        "DeepSeek R1 analysis confirms the classification."⟩,
      extracted_fields := [("deal_name", none), ("amount", none), ("expiration_date", none)],
      attachments_extracted_fields :=
        [[("deal_name", some "Falcon-2 end"), ("amount", none), ("expiration_date", none)],
         [("deal_name", none), ("amount", none), ("expiration_date", none)]] }
    rfl

/-- The deal pattern cannot match where its literal label is not a
prefix. -/
theorem matchDealAt_of_no_label {cs : List Char}
    (h : List.isPrefixOf "Deal:".data cs = false) : matchDealAt cs = none := by
  simp [matchDealAt, h]

/-- If the label matches nowhere, the scan of re.search returns none. -/
theorem searchDeal_eq_none {cs : List Char}
    (h : ∀ i, List.isPrefixOf "Deal:".data (cs.drop i) = false) :
    searchDeal cs = none := by
  induction cs with
  | nil => rfl
  | cons c rest ih =>
    have h0 : List.isPrefixOf "Deal:".data (c :: rest) = false := h 0
    simp [searchDeal, matchDealAt_of_no_label h0]
    exact ih fun i => h (i + 1)

/-- C9 (amended): deal_name is none when the label Deal: occurs nowhere in
the text; when it matches, the capture is the run of word characters
(letters, digits, underscores), whitespace and hyphens after the label,
trimmed — underscores are kept, a label whose follower is outside the set
is skipped in favour of a later occurrence, and a label followed by
whitespace only captures one whitespace character, trimmed to the empty
string. -/
theorem c9_deal_name :
    (∀ t : String, (∀ i, i < t.data.length →
        List.isPrefixOf "Deal:".data (t.data.drop i) = false) →
      List.lookup "deal_name" (extract_fields t) = some none) ∧
    List.lookup "deal_name" (extract_fields "Deal: Project Falcon, amount due") =
      some (some "Project Falcon") ∧
    List.lookup "deal_name" (extract_fields "Deal: a_b") = some (some "a_b") ∧
    List.lookup "deal_name" (extract_fields "Deal:! Deal: X") = some (some "X") ∧
    List.lookup "deal_name" (extract_fields "Deal: !") = some (some "") ∧
    List.lookup "deal_name" (extract_fields "Deal:!") = some none := by
  refine ⟨fun t h => ?_, by decide, by decide, by decide, by decide, by decide⟩
  have h' : ∀ i, List.isPrefixOf "Deal:".data (t.data.drop i) = false := by
    intro i
    by_cases hi : i < t.data.length
    · exact h i hi
    · rw [List.drop_eq_nil_of_le (Nat.le_of_not_lt hi)]
      rfl
  simp [extract_fields, searchDeal_eq_none h', List.lookup]

/-- C9 witness: a text with no Deal: label anywhere yields a none
deal_name. -/
theorem c9_deal_name_witness :
    List.lookup "deal_name" (extract_fields "no label here") = some none :=
  c9_deal_name.1 "no label here" (by decide)

/-- C9 counterexample to the claim as stated: the regex word class keeps
underscores, so the capture on "Deal: a_b" is "a_b" where the claim's
character set (letters, digits, whitespace, hyphens) would stop at the
underscore and capture "a"; and the search skips a first label occurrence
followed by no capturable character instead of stopping at it, so
"Deal:! Deal: X" yields "X" where the claim's reading of the first
occurrence gives an empty capture. -/
theorem c9_counterexample :
    List.lookup "deal_name" (extract_fields "Deal: a_b") = some (some "a_b") ∧
    List.lookup "deal_name" (extract_fields "Deal:! Deal: X") = some (some "X") :=
  ⟨by decide, by decide⟩

/-- C10: the extension of the path is lowercased before comparison, so .EML
and .Msg are accepted case-insensitively, and every path whose lowercased
extension is neither .eml nor .msg is dispatched to the ValueError raise
before process_email can run. -/
theorem c10_extension_dispatch :
    (∀ p : String, lowerStr (splitext p).2 ≠ ".eml" → lowerStr (splitext p).2 ≠ ".msg" →
      process_email_file_dispatch p = .unsupportedError unsupported_message) ∧
    (∀ p : String, lowerStr (splitext p).2 = ".eml" →
      process_email_file_dispatch p = .processEml) ∧
    (∀ p : String, lowerStr (splitext p).2 = ".msg" →
      process_email_file_dispatch p = .processMsg) ∧
    process_email_file_dispatch "inbox/mail.EML" = .processEml ∧
    process_email_file_dispatch "mail.Msg" = .processMsg ∧
    process_email_file_dispatch "notes.txt" = .unsupportedError unsupported_message ∧
    process_email_file_dispatch "README" = .unsupportedError unsupported_message := by
  refine ⟨fun p h1 h2 => ?_, fun p h1 => ?_, fun p h1 => ?_,
    by decide, by decide, by decide, by decide⟩
  · simp [process_email_file_dispatch, h1, h2]
  · simp [process_email_file_dispatch, h1]
  · simp [process_email_file_dispatch, h1]

/-- C10 witness: a concrete unsupported extension is rejected. -/
theorem c10_extension_dispatch_witness :
    process_email_file_dispatch "report.pdf" = .unsupportedError unsupported_message :=
  c10_extension_dispatch.1 "report.pdf" (by decide) (by decide)

end EmailApp

